import Mathlib

/-!
Verification development for the local-docker query runner
(`internal/qrunner/localdocker/local_docker.go`).

The Go code talks to a remote Docker engine; we embed it shallowly:
every engine call is an oracle supplied through an environment record,
and each embedded function additionally returns the list of engine
calls (events) it issued, so that frame / effect properties ("no pull
was issued", "exactly one force-remove") become statements about that
event list.  Machine integers of the source (`int`, `int64`, `uint`,
`uint64`) are modelled as `Int` / `Nat`; none of the verified claims
depends on overflow behaviour.
-/

namespace LocalDocker

/-- The readiness sentinel substring tested by `checkIfQueryExecuted`
(local_docker.go:507). -/
def sentinel : String := "DB::NetException: Connection refused"

/-- Go's `strings.Contains hay needle`: `needle` occurs as a contiguous
substring of `hay`. -/
def containsSubstring (hay needle : String) : Prop :=
  needle.toList <:+: hay.toList

instance (hay needle : String) : Decidable (containsSubstring hay needle) := by
  unfold containsSubstring
  infer_instance

/-- Function `checkIfQueryExecuted` (local_docker.go:506-508): the query counts as
executed (the instance is "ready") exactly when stderr does not contain the
sentinel.  The first argument (stdout) is ignored by the source, which binds
it to `_`. -/
def checkIfQueryExecuted (_stdout stderr : String) : Bool :=
  ! decide (containsSubstring stderr sentinel)

/-- Outcome of one `exec` call (local_docker.go:427-470): either the
demultiplexed stdout/stderr pair, or an error (which includes the
cancellation error `ctx.Err()` surfaced when the caller's context ends
while waiting for output). -/
inductive ExecOutcome where
  | ok (stdout stderr : String)
  | err (msg : String)
deriving DecidableEq

/-- The retry loop of `runQuery` (local_docker.go:481-493).
`attempts i` is the oracle for the `exec` call of iteration `i`;
`remaining` is the number of iterations the `for retry := ...` loop still
has (Go runs it while `retry < MaxExecRetries`); `stdout`/`stderr` are the
loop-carried last captured outputs (zero values `""` initially).
Returns the list of iteration indices at which `exec` was called, and
either the error that aborted the loop or the final (stdout, stderr). -/
def runQueryLoop (attempts : Nat → ExecOutcome) :
    Nat → Nat → String → String → List Nat × Except String (String × String)
  | 0, _, stdout, stderr => ([], .ok (stdout, stderr))
  | n + 1, retry, _, _ =>
    match attempts retry with
    | .err e => ([retry], .error e)
    | .ok out errOut =>
      if checkIfQueryExecuted out errOut then
        ([retry], .ok (out, errOut))
      else
        let rest := runQueryLoop attempts n (retry + 1) out errOut
        (retry :: rest.1, rest.2)

/-- Function `runQuery` (local_docker.go:472-500): run the retry loop for
`MaxExecRetries` iterations (a Go `int`; nonpositive values give zero
iterations), then shape the output: an exec error propagates; otherwise
the result is stdout alone when stderr is empty, and
`stdout ++ "\n" ++ stderr` otherwise. -/
def runQuery (attempts : Nat → ExecOutcome) (maxExecRetries : Int) :
    List Nat × Except String String :=
  let r := runQueryLoop attempts maxExecRetries.toNat 0 "" ""
  match r.2 with
  | .error e => (r.1, .error e)
  | .ok (stdout, stderr) =>
    (r.1, if stderr = "" then .ok stdout else .ok (stdout ++ "\n" ++ stderr))

/-! ### Garbage collector -/

/-- A container as returned by `ContainerList` (the fields
`triggerContainersGC` reads: `ID`, `Created`, `SizeRw`). -/
structure ContainerInfo where
  id : String
  created : Int
  sizeRw : Nat
deriving DecidableEq

/-- An image as returned by `ImageList` (fields read: `ID`, `RepoTags`). -/
structure ImageSummary where
  id : String
  repoTags : List String
deriving DecidableEq

/-- An image as returned by `ImageInspectWithRaw` (fields read: `ID`,
`RepoTags`, `Size`, `Metadata.LastTagTime`).  Instants are modelled as
integers. -/
structure ImageInspect where
  id : String
  repoTags : List String
  size : Nat
  lastTagTime : Int
deriving DecidableEq

/-- Structure `GCConfig` (the fields `triggerContainersGC` / `triggerImagesGC` read).
`containerTTL` and `imageGCCountThreshold` are optional pointers in the
source; `none` models a nil pointer. -/
structure GCConfig where
  containerTTL : Option Int
  imageGCCountThreshold : Option Nat
  imageBufferSize : Nat
deriving DecidableEq

/-- One Docker-engine call issued by a GC pass. -/
inductive GCEvent where
  | containersPrune
  | containerList
  | forceRemoveContainer (id : String)
  | imageList
  | imageInspect (id : String)
  | imageRemove (tag : String)
deriving DecidableEq

/-- Oracle for the Docker-engine calls a GC trigger makes.
`isOwned tag` abstracts `qrunner.IsPlaygroundImageName(tag, r.repository)`
(a pure predicate defined outside this file's source); `nowAt i` is the
instant returned by `time.Now()` at iteration `i` of the hung-container
sweep; `inspectOutcome` returns `none` when `ImageInspectWithRaw` fails;
`removeTagOk img tag` / `removeContainerOk id` tell whether the
corresponding removal call succeeds. -/
structure GCEnv where
  pruneOutcome : Except String (Nat × Nat)
  containerList : Except String (List ContainerInfo)
  nowAt : Nat → Int
  removeContainerOk : String → Bool
  imageList : Except String (List ImageSummary)
  isOwned : String → Bool
  inspectOutcome : String → Option ImageInspect
  removeTagOk : String → String → Bool

/-- Result of one GC sub-pass: the engine calls issued, the removed count,
the space reclaimed, and the error returned, if any. -/
structure PassResult where
  events : List GCEvent
  count : Nat
  space : Nat
  err : Option String
deriving DecidableEq

/-- The hung-container sweep loop of `triggerContainersGC`
(local_docker.go:155-169): for each listed container, if the current
instant is still before `created + ttl` the container is skipped;
otherwise a force-remove is attempted, and on success the container is
counted and its `SizeRw` added to the space reclaimed (a failed removal
is logged and skipped). -/
def sweepLoop (ttl : Int) (nowAt : Nat → Int) (removeContainerOk : String → Bool) :
    List ContainerInfo → Nat → List GCEvent × Nat × Nat
  | [], _ => ([], 0, 0)
  | c :: rest, i =>
    if nowAt i < c.created + ttl then
      sweepLoop ttl nowAt removeContainerOk rest (i + 1)
    else
      let r := sweepLoop ttl nowAt removeContainerOk rest (i + 1)
      (.forceRemoveContainer c.id :: r.1,
       (if removeContainerOk c.id then r.2.1 + 1 else r.2.1),
       (if removeContainerOk c.id then r.2.2 + c.sizeRw else r.2.2))

/-- Function `triggerContainersGC` (local_docker.go:125-172): prune stopped owned
containers; then, only when `containerTTL` is set, list owned containers
and run the hung-container sweep.  Prune / list failures return an error
(together with the counts accumulated so far). -/
def triggerContainersGC (cfg : GCConfig) (env : GCEnv) : PassResult :=
  match env.pruneOutcome with
  | .error e => ⟨[.containersPrune], 0, 0, some ("failed to prune stopped containers: " ++ e)⟩
  | .ok (pc, ps) =>
    match cfg.containerTTL with
    | none => ⟨[.containersPrune], pc, ps, none⟩
    | some ttl =>
      match env.containerList with
      | .error e =>
        ⟨[.containersPrune, .containerList], pc, ps, some ("failed to list containers: " ++ e)⟩
      | .ok cs =>
        let r := sweepLoop ttl env.nowAt env.removeContainerOk cs 0
        ⟨.containersPrune :: .containerList :: r.1, pc + r.2.1, ps + r.2.2, none⟩

/-- The candidate filter of `triggerImagesGC` (local_docker.go:193-208):
images one of whose repo tags satisfies the owned-image predicate. -/
def gcCandidates (isOwned : String → Bool) (images : List ImageSummary) :
    List ImageSummary :=
  images.filter (fun img => img.repoTags.any isOwned)

/-- Insertion step of the ascending sort on `Metadata.LastTagTime`
(local_docker.go:226-228). -/
def insertImage (x : ImageInspect) : List ImageInspect → List ImageInspect
  | [] => [x]
  | y :: ys =>
    if x.lastTagTime ≤ y.lastTagTime then x :: y :: ys else y :: insertImage x ys

/-- Ascending sort of inspected images by last-tag time
(the `sort.Slice` call of local_docker.go:226-228). -/
def sortImages : List ImageInspect → List ImageInspect
  | [] => []
  | x :: xs => insertImage x (sortImages xs)

/-- Function `removeImages` (local_docker.go:237-264): for each image, attempt to
remove every one of its repo tags (a failed tag removal is logged and the
remaining tags are still attempted); the image is counted as removed, and
its size added to the space reclaimed, only when every tag removal
succeeded. -/
def removeImages (removeTagOk : String → String → Bool) :
    List ImageInspect → List GCEvent × Nat × Nat
  | [] => ([], 0, 0)
  | img :: rest =>
    let ok := img.repoTags.all (removeTagOk img.id)
    let r := removeImages removeTagOk rest
    (img.repoTags.map GCEvent.imageRemove ++ r.1,
     (if ok then r.2.1 + 1 else r.2.1),
     (if ok then r.2.2 + img.size else r.2.2))

/-- Function `triggerImagesGC` (local_docker.go:177-235): skipped entirely when
`imageGCCountThreshold` is unset; otherwise list images, filter to owned
candidates, and stop when the candidate count is below the threshold.
Otherwise inspect each candidate (inspect failures are logged and the
candidate dropped), sort ascending by last-tag time, and when more than
`imageBufferSize` remain, hand the slice past the first `imageBufferSize`
to `removeImages`. -/
def triggerImagesGC (cfg : GCConfig) (env : GCEnv) : PassResult :=
  match cfg.imageGCCountThreshold with
  | none => ⟨[], 0, 0, none⟩
  | some threshold =>
    match env.imageList with
    | .error e => ⟨[.imageList], 0, 0, some ("failed to list images: " ++ e)⟩
    | .ok images =>
      let candidates := gcCandidates env.isOwned images
      if candidates.length < threshold then ⟨[.imageList], 0, 0, none⟩
      else
        let inspectEvents := candidates.map (fun c => GCEvent.imageInspect c.id)
        let detailed := candidates.filterMap (fun c => env.inspectOutcome c.id)
        let sorted := sortImages detailed
        if sorted.length > cfg.imageBufferSize then
          let r := removeImages env.removeTagOk (sorted.drop cfg.imageBufferSize)
          ⟨.imageList :: inspectEvents ++ r.1, r.2.1, r.2.2, none⟩
        else
          ⟨.imageList :: inspectEvents, 0, 0, none⟩

/-- Function `triggerGC` (local_docker.go:99-121): each of the two sub-passes is
guarded by an `isStopped` context check (`stopped 0` before the container
sub-pass, `stopped 1` before the image sub-pass); an error returned by the
container sub-pass is wrapped and returned immediately, so the image
sub-pass does not run in that trigger. -/
def triggerGC (stopped : Nat → Bool) (cfg : GCConfig) (env : GCEnv) :
    List GCEvent × Option String :=
  if stopped 0 then ([], none)
  else
    let c := triggerContainersGC cfg env
    match c.err with
    | some e => (c.events, some ("containers gc failed: " ++ e))
    | none =>
      if stopped 1 then (c.events, none)
      else
        let i := triggerImagesGC cfg env
        match i.err with
        | some e => (c.events ++ i.events, some ("images gc failed: " ++ e))
        | none => (c.events ++ i.events, none)

/-! ### Pull pipeline and request orchestration -/

/-- Structure `dockertag.ImageTag` as read by `pull` (only the digest is used). -/
structure ImageTag where
  digest : String
deriving DecidableEq

/-- One Docker-engine call issued by `pull` / `checkIfImageExists`. -/
inductive PullEvent where
  | inspectImage (name : String)
  | pullImage (name : String)
  | tagImage (source target : String)
deriving DecidableEq

/-- Oracle and fixed inputs for one `pull` call.  `fullImageName` and
`playgroundImageName` abstract the pure naming helpers
`qrunner.FullImageName` / `qrunner.PlaygroundImageName`, which live
outside this file's source; `tagGet` is the tag-storage read;
`localExists name` is the outcome of the `ImageInspectWithRaw` existence
probe (`true` exactly when the probe call returns no error). -/
structure PullEnv where
  repository : String
  version : String
  fullImageName : String → String → String
  playgroundImageName : String → String → String
  tagGet : String → Option ImageTag
  localExists : String → Bool
  pullOutcome : String → Except String Unit
  tagOutcome : String → String → Except String Unit

/-- Function `checkIfImageExists` (local_docker.go:358-377): a single inspect probe
of the derived image name; `true` exactly when the probe succeeds. -/
def checkIfImageExists (env : PullEnv) (chpImageName : String) :
    List PullEvent × Bool :=
  ([.inspectImage chpImageName], env.localExists chpImageName)

/-- Function `pull` (local_docker.go:307-356): resolve the version through the tag
storage (absence is a terminal error), derive `chpImageName`, probe for it
locally and return immediately on a hit; on a miss pull the upstream image
and retag it under `chpImageName`.  On success the derived `chpImageName`
(recorded into the request state by the source) is returned. -/
def pull (env : PullEnv) : List PullEvent × Except String String :=
  let imageName := env.fullImageName env.repository env.version
  match env.tagGet env.version with
  | none => ([], .error "version not found")
  | some tag =>
    let chpImageName := env.playgroundImageName env.repository tag.digest
    let probe := checkIfImageExists env chpImageName
    if probe.2 then (probe.1, .ok chpImageName)
    else
      match env.pullOutcome imageName with
      | .error e => (probe.1 ++ [.pullImage imageName], .error ("docker pull failed: " ++ e))
      | .ok _ =>
        match env.tagOutcome imageName chpImageName with
        | .error e =>
          (probe.1 ++ [.pullImage imageName, .tagImage imageName chpImageName],
           .error ("failed to tag image: " ++ e))
        | .ok _ =>
          (probe.1 ++ [.pullImage imageName, .tagImage imageName chpImageName],
           .ok chpImageName)

/-- One engine call issued during a `RunQuery` request. -/
inductive RunEvent where
  | pullStep (p : PullEvent)
  | createContainer
  | startContainer
  | execCall (retry : Nat)
  | forceRemove (containerID : String)
deriving DecidableEq

/-- Oracle for one `RunQuery` call.  `ctxCanceled` records whether the
caller's context was canceled during the request (any cancellation of
`exec` itself additionally surfaces through `attempts` as an error
outcome, as in the source where `exec` returns `ctx.Err()`). -/
structure RunEnv where
  pullEnv : PullEnv
  createOutcome : Except String String
  startOutcome : Except String Unit
  attempts : Nat → ExecOutcome
  maxExecRetries : Int
  ctxCanceled : Bool

/-- Function `runContainer` (local_docker.go:380-425): create then start the
container; the created container's id is recorded into the request state. -/
def runContainer (env : RunEnv) : List RunEvent × Except String String :=
  match env.createOutcome with
  | .error e => ([.createContainer], .error ("container cannot be created: " ++ e))
  | .ok cid =>
    match env.startOutcome with
    | .error e =>
      ([.createContainer, .startContainer], .error ("container cannot be started: " ++ e))
    | .ok _ => ([.createContainer, .startContainer], .ok cid)

/-- The cleanup watcher goroutine spawned by `RunQuery`
(local_docker.go:283-296): it blocks on a `select` over the caller's
`ctx.Done()` and the request's `done` channel, and on either event
force-removes the container exactly once.  Since `close(done)` is
deferred, `doneClosed` is `true` on every exit path of `RunQuery`, so the
watcher always eventually fires (fair scheduling is assumed: the trace
below places the watcher's single call after the request's own calls). -/
def watcher (ctxDone doneClosed : Bool) (containerID : String) : List RunEvent :=
  if ctxDone || doneClosed then [.forceRemove containerID] else []

/-- Function `RunQuery` (local_docker.go:266-304): pull, run the container, spawn
the cleanup watcher, execute the query with retries; errors of each phase
are wrapped and returned.  The deferred `close(done)` makes the watcher's
`doneClosed` input `true` on every path reached after the container
started. -/
def RunQuery (env : RunEnv) : List RunEvent × Except String String :=
  let p := pull env.pullEnv
  match p.2 with
  | .error e => (p.1.map .pullStep, .error ("pull failed: " ++ e))
  | .ok _chp =>
    let c := runContainer env
    match c.2 with
    | .error e => (p.1.map .pullStep ++ c.1, .error ("failed to run container: " ++ e))
    | .ok cid =>
      let q := runQuery env.attempts env.maxExecRetries
      let cleanup := watcher env.ctxCanceled true cid
      match q.2 with
      | .error e =>
        (p.1.map .pullStep ++ c.1 ++ q.1.map .execCall ++ cleanup,
         .error ("failed to run query: " ++ e))
      | .ok out =>
        (p.1.map .pullStep ++ c.1 ++ q.1.map .execCall ++ cleanup, .ok out)

/-- Whether a request-trace event is a `forceRemoveContainer` call. -/
def isForceRemove : RunEvent → Bool
  | .forceRemove _ => true
  | _ => false

/-- Counts the force-remove calls in a request trace. -/
def countForceRemove (evs : List RunEvent) : Nat :=
  evs.countP isForceRemove

/-! ### Theorems -/

/-- C3: for all stdout and stderr strings, the readiness check reports
"not ready" (returns `false`) if and only if stderr contains the sentinel
substring `"DB::NetException: Connection refused"`; stdout never
influences the result, and empty stderr counts as ready. -/
theorem claim_C3_readiness_sentinel (stdout stderr : String) :
    (checkIfQueryExecuted stdout stderr = false ↔ containsSubstring stderr sentinel) ∧
    (∀ other : String, checkIfQueryExecuted other stderr = checkIfQueryExecuted stdout stderr) ∧
    checkIfQueryExecuted stdout "" = true := by
  refine ⟨?_, fun other => rfl, ?_⟩
  · simp [checkIfQueryExecuted]
  · show (! decide (containsSubstring "" sentinel)) = true
    decide

/-- C8: `removeImages` attempts the removal of every repo tag of every
handed-over image exactly once (no tag is retried within the pass), and an
image contributes 1 to the removed count and its size to the reclaimed
space exactly when every one of its tag removals succeeded; an image with
a failed tag removal contributes nothing. -/
theorem claim_C8_partial_removal_uncounted (removeTagOk : String → String → Bool)
    (images : List ImageInspect) :
    (removeImages removeTagOk images).1 =
      images.flatMap (fun img => img.repoTags.map GCEvent.imageRemove) ∧
    (removeImages removeTagOk images).2.1 =
      (images.filter (fun img => img.repoTags.all (removeTagOk img.id))).length ∧
    (removeImages removeTagOk images).2.2 =
      ((images.filter (fun img => img.repoTags.all (removeTagOk img.id))).map
        (fun img => img.size)).sum := by
  induction images with
  | nil => exact ⟨rfl, rfl, rfl⟩
  | cons img rest ih =>
    obtain ⟨ih1, ih2, ih3⟩ := ih
    by_cases h : img.repoTags.all (removeTagOk img.id)
    · simp [removeImages, h, ih1, ih2, ih3, Nat.add_comm]
    · simp [removeImages, h, ih1, ih2, ih3]

/-- C7: the image GC sub-pass is skipped entirely (no engine call at all)
when `imageGCCountThreshold` is unset, and performs zero inspections and
zero removal attempts (its only engine call is the image list) whenever
the owned-candidate count is strictly below the threshold. -/
theorem claim_C7_threshold_gate (cfg : GCConfig) (env : GCEnv) :
    (cfg.imageGCCountThreshold = none → triggerImagesGC cfg env = ⟨[], 0, 0, none⟩) ∧
    (∀ (t : Nat) (images : List ImageSummary),
      cfg.imageGCCountThreshold = some t → env.imageList = .ok images →
      (gcCandidates env.isOwned images).length < t →
      triggerImagesGC cfg env = ⟨[.imageList], 0, 0, none⟩) := by
  constructor
  · intro h
    simp [triggerImagesGC, h]
  · intro t images ht hl hlt
    simp [triggerImagesGC, ht, hl, hlt]

/-- A GC configuration with image eviction enabled: threshold 2 owned
candidates, buffer size 1. -/
def cfgTwoOne : GCConfig := ⟨none, some 2, 1⟩

/-- An engine state with two owned candidate images: `sha-old`
(last tagged at instant 10) and `sha-new` (last tagged at instant 20);
every removal succeeds. -/
def envTwoImages : GCEnv where
  pruneOutcome := .ok (0, 0)
  containerList := .ok []
  nowAt := fun _ => 0
  removeContainerOk := fun _ => true
  imageList := .ok [⟨"sha-old", ["chp-old"]⟩, ⟨"sha-new", ["chp-new"]⟩]
  isOwned := fun _ => true
  inspectOutcome := fun id =>
    if id = "sha-old" then some ⟨"sha-old", ["chp-old"], 100, 10⟩
    else if id = "sha-new" then some ⟨"sha-new", ["chp-new"], 200, 20⟩
    else none
  removeTagOk := fun _ _ => true

/-- C1 (failing input): with candidateCount C = 2, bufferSize B = 1 and
distinct last-tag times 10 (`sha-old`) < 20 (`sha-new`), the image GC
attempts removal of the MOST recently tagged image (`chp-new`, the tag of
`sha-new`) and never attempts the oldest-tagged one (`chp-old`): after the
ascending sort the code removes `detailed[B:]`, i.e. the newest-tagged
images, retaining the B oldest — the opposite of the claimed retention of
the B most-recently-tagged candidates. -/
theorem claim_C1_code_removes_newest :
    (triggerImagesGC cfgTwoOne envTwoImages).events =
      [.imageList, .imageInspect "sha-old", .imageInspect "sha-new",
       .imageRemove "chp-new"] ∧
    GCEvent.imageRemove "chp-old" ∉ (triggerImagesGC cfgTwoOne envTwoImages).events := by
  refine ⟨by decide, by decide⟩

/-- A GC configuration with image eviction disabled. -/
def cfgNoThreshold : GCConfig := ⟨none, none, 0⟩

/-- A GC configuration with image-eviction threshold 3 and buffer size 1. -/
def cfgThreshold3 : GCConfig := ⟨none, some 3, 1⟩

/-- Witness for C7: with the threshold unset the image sub-pass issues no
engine call; with threshold 3 and only 2 owned candidates it issues only
the image list call. -/
theorem claim_C7_witness :
    triggerImagesGC cfgNoThreshold envTwoImages = ⟨[], 0, 0, none⟩ ∧
    triggerImagesGC cfgThreshold3 envTwoImages = ⟨[.imageList], 0, 0, none⟩ :=
  ⟨(claim_C7_threshold_gate cfgNoThreshold envTwoImages).1 rfl,
   (claim_C7_threshold_gate cfgThreshold3 envTwoImages).2 3
     [⟨"sha-old", ["chp-old"]⟩, ⟨"sha-new", ["chp-new"]⟩] rfl rfl (by decide)⟩

/-- Every force-remove issued by the hung-container sweep belongs to a
listed container whose deadline `created + ttl` had already been reached
at the instant `nowAt` of its loop iteration. -/
lemma sweepLoop_remove_elapsed (ttl : Int) (nowAt : Nat → Int) (rok : String → Bool) :
    ∀ (cs : List ContainerInfo) (i : Nat) (id : String),
      GCEvent.forceRemoveContainer id ∈ (sweepLoop ttl nowAt rok cs i).1 →
      ∃ j c, cs.get? j = some c ∧ c.id = id ∧ c.created + ttl ≤ nowAt (i + j) := by
  intro cs
  induction cs with
  | nil =>
    intro i id h
    simp [sweepLoop] at h
  | cons c rest ih =>
    intro i id hmem
    by_cases hlt : nowAt i < c.created + ttl
    · rw [show (sweepLoop ttl nowAt rok (c :: rest) i).1
          = (sweepLoop ttl nowAt rok rest (i + 1)).1 from by simp [sweepLoop, hlt]] at hmem
      obtain ⟨j, d, hj, hid, hle⟩ := ih (i + 1) id hmem
      refine ⟨j + 1, d, by simpa using hj, hid, ?_⟩
      have hidx : i + (j + 1) = i + 1 + j := by omega
      rw [hidx]
      exact hle
    · rw [show (sweepLoop ttl nowAt rok (c :: rest) i).1
          = .forceRemoveContainer c.id :: (sweepLoop ttl nowAt rok rest (i + 1)).1 from by
            simp [sweepLoop, hlt]] at hmem
      rcases List.mem_cons.mp hmem with h1 | h2
      · refine ⟨0, c, rfl, ?_, ?_⟩
        · injection h1 with h1
          exact h1.symm
        · simp only [Nat.add_zero]
          omega
      · obtain ⟨j, d, hj, hid, hle⟩ := ih (i + 1) id h2
        refine ⟨j + 1, d, by simpa using hj, hid, ?_⟩
        have hidx : i + (j + 1) = i + 1 + j := by omega
        rw [hidx]
        exact hle

/-- C6: when `containerTTL` is unset the container sub-pass issues only
the prune call (no container list, no force-remove); when it is set and
the container list succeeds, every force-removed container is one of the
listed containers whose creation time plus the TTL had already elapsed at
the instant of its sweep iteration — a container younger than the TTL is
never removed. -/
theorem claim_C6_hung_sweep (cfg : GCConfig) (env : GCEnv) :
    (cfg.containerTTL = none → (triggerContainersGC cfg env).events = [.containersPrune]) ∧
    (∀ (ttl : Int) (cs : List ContainerInfo),
      cfg.containerTTL = some ttl → env.containerList = .ok cs →
      ∀ id, GCEvent.forceRemoveContainer id ∈ (triggerContainersGC cfg env).events →
        ∃ j c, cs.get? j = some c ∧ c.id = id ∧ c.created + ttl ≤ env.nowAt j) := by
  constructor
  · intro h
    unfold triggerContainersGC
    rcases env.pruneOutcome with e | ⟨pc, ps⟩ <;> simp [h]
  · intro ttl cs httl hcl id hmem
    unfold triggerContainersGC at hmem
    rcases hpr : env.pruneOutcome with e | ⟨pc, ps⟩
    · rw [hpr] at hmem
      simp at hmem
    · rw [hpr, httl, hcl] at hmem
      simp at hmem
      have := sweepLoop_remove_elapsed ttl env.nowAt env.removeContainerOk cs 0 id hmem
      simpa using this

/-- A GC configuration whose only enabled feature is a container TTL of 5. -/
def cfgTTL5 : GCConfig := ⟨some 5, none, 0⟩

/-- An engine state listing one owned container created at instant 0,
observed at instant 100. -/
def envOneOldContainer : GCEnv where
  pruneOutcome := .ok (0, 0)
  containerList := .ok [⟨"c1", 0, 7⟩]
  nowAt := fun _ => 100
  removeContainerOk := fun _ => true
  imageList := .ok []
  isOwned := fun _ => true
  inspectOutcome := fun _ => none
  removeTagOk := fun _ _ => true

/-- Witness for C6: with TTL unset only the prune call is issued; with
TTL 5 the removed container `c1` is a listed container whose deadline had
elapsed. -/
theorem claim_C6_witness :
    (triggerContainersGC cfgNoThreshold envOneOldContainer).events = [.containersPrune] ∧
    (∃ j c, ([⟨"c1", 0, 7⟩] : List ContainerInfo).get? j = some c ∧
      c.id = "c1" ∧ c.created + 5 ≤ envOneOldContainer.nowAt j) :=
  ⟨(claim_C6_hung_sweep cfgNoThreshold envOneOldContainer).1 rfl,
   (claim_C6_hung_sweep cfgTTL5 envOneOldContainer).2 5 [⟨"c1", 0, 7⟩] rfl rfl "c1" (by decide)⟩

/-- An engine state whose stopped-container prune fails. -/
def envPruneFails : GCEnv where
  pruneOutcome := .error "boom"
  containerList := .ok []
  nowAt := fun _ => 0
  removeContainerOk := fun _ => true
  imageList := .ok []
  isOwned := fun _ => true
  inspectOutcome := fun _ => none
  removeTagOk := fun _ _ => true

/-- A GC configuration with image eviction enabled at threshold 0. -/
def cfgImagesOn : GCConfig := ⟨none, some 0, 0⟩

/-- C5 counterexample: with an enabled image sub-pass (threshold 0, so it
would issue its image-list call — last conjunct) and a failing container
prune, the whole trigger stops after the container sub-pass: the only
engine call of the trigger is the prune, no image call is issued in the
same trigger, and the wrapped container error is returned. -/
theorem claim_C5_counterexample :
    (triggerGC (fun _ => false) cfgImagesOn envPruneFails).1 = [.containersPrune] ∧
    GCEvent.imageList ∉ (triggerGC (fun _ => false) cfgImagesOn envPruneFails).1 ∧
    (triggerGC (fun _ => false) cfgImagesOn envPruneFails).2 =
      some "containers gc failed: failed to prune stopped containers: boom" ∧
    (triggerImagesGC cfgImagesOn envPruneFails).events = [.imageList] :=
  ⟨by decide, by decide, by decide, by decide⟩

/-- C5 (amended): an error returned by the container sub-pass aborts the
whole trigger for that tick: `triggerGC` returns the wrapped error and its
trace is exactly the container sub-pass's calls — the image sub-pass does
not run in that trigger (the GC loop continues at the next tick, where the
error has only been logged). -/
theorem claim_C5_amended_container_error_aborts_trigger
    (stopped : Nat → Bool) (cfg : GCConfig) (env : GCEnv) (e : String)
    (hs : stopped 0 = false)
    (he : (triggerContainersGC cfg env).err = some e) :
    triggerGC stopped cfg env =
      ((triggerContainersGC cfg env).events, some ("containers gc failed: " ++ e)) := by
  simp [triggerGC, hs, he]

/-- Witness for the amended C5 at the counterexample input. -/
theorem claim_C5_amended_witness :
    triggerGC (fun _ => false) cfgImagesOn envPruneFails =
      ([.containersPrune], some "containers gc failed: failed to prune stopped containers: boom") :=
  claim_C5_amended_container_error_aborts_trigger (fun _ => false) cfgImagesOn envPruneFails
    "failed to prune stopped containers: boom" rfl rfl

/-- C9: once the version resolves, a successful existence probe for the
derived `chpImageName` makes `pull` return successfully with the inspect
probe as its only engine call — no image pull and no image tag call;
only on a probe miss does it pull the upstream image and retag it under
`chpImageName`. -/
theorem claim_C9_cache_hit_short_circuits (env : PullEnv) (tag : ImageTag)
    (ht : env.tagGet env.version = some tag) :
    (env.localExists (env.playgroundImageName env.repository tag.digest) = true →
      pull env = ([.inspectImage (env.playgroundImageName env.repository tag.digest)],
        .ok (env.playgroundImageName env.repository tag.digest))) ∧
    (env.localExists (env.playgroundImageName env.repository tag.digest) = false →
      env.pullOutcome (env.fullImageName env.repository env.version) = .ok () →
      env.tagOutcome (env.fullImageName env.repository env.version)
        (env.playgroundImageName env.repository tag.digest) = .ok () →
      pull env = ([.inspectImage (env.playgroundImageName env.repository tag.digest),
        .pullImage (env.fullImageName env.repository env.version),
        .tagImage (env.fullImageName env.repository env.version)
          (env.playgroundImageName env.repository tag.digest)],
        .ok (env.playgroundImageName env.repository tag.digest))) := by
  constructor
  · intro hhit
    simp [pull, checkIfImageExists, ht, hhit]
  · intro hmiss hpullOk htagOk
    simp [pull, checkIfImageExists, ht, hmiss, hpullOk, htagOk]

/-- A pull environment whose existence probe hits. -/
def pullEnvHit : PullEnv where
  repository := "repo"
  version := "v1"
  fullImageName := fun _ _ => "full-image"
  playgroundImageName := fun _ _ => "chp-image"
  tagGet := fun _ => some ⟨"d1"⟩
  localExists := fun _ => true
  pullOutcome := fun _ => .ok ()
  tagOutcome := fun _ _ => .ok ()

/-- A pull environment whose existence probe misses. -/
def pullEnvMiss : PullEnv where
  repository := "repo"
  version := "v1"
  fullImageName := fun _ _ => "full-image"
  playgroundImageName := fun _ _ => "chp-image"
  tagGet := fun _ => some ⟨"d1"⟩
  localExists := fun _ => false
  pullOutcome := fun _ => .ok ()
  tagOutcome := fun _ _ => .ok ()

/-- Witness for C9: on a hit the trace is the single inspect; on a miss it
is inspect, pull, tag. -/
theorem claim_C9_witness :
    pull pullEnvHit = ([.inspectImage "chp-image"], .ok "chp-image") ∧
    pull pullEnvMiss = ([.inspectImage "chp-image", .pullImage "full-image",
      .tagImage "full-image" "chp-image"], .ok "chp-image") :=
  ⟨(claim_C9_cache_hit_short_circuits pullEnvHit ⟨"d1"⟩ rfl).1 rfl,
   (claim_C9_cache_hit_short_circuits pullEnvMiss ⟨"d1"⟩ rfl).2 rfl rfl rfl⟩

lemma countP_isForceRemove_pullStep (l : List PullEvent) :
    List.countP (isForceRemove ∘ RunEvent.pullStep) l = 0 :=
  List.countP_eq_zero.mpr (fun x _ => by simp [Function.comp, isForceRemove])

lemma countP_isForceRemove_execCall (l : List Nat) :
    List.countP (isForceRemove ∘ RunEvent.execCall) l = 0 :=
  List.countP_eq_zero.mpr (fun x _ => by simp [Function.comp, isForceRemove])

/-- C2: for every `RunQuery` call that reached a created and started
container (pull succeeded, create succeeded, start succeeded), the request
trace contains exactly one force-remove call — whatever the query phase
returns (success, an exec error, or the cancellation error surfaced when
the caller's context ends), and whether or not the caller canceled: the
deferred close of the request-finished channel makes the watcher's
`select` always fire, and both of its branches perform the single
force-remove. -/
theorem claim_C2_exactly_one_force_remove (env : RunEnv) (chp cid : String)
    (hp : (pull env.pullEnv).2 = .ok chp)
    (hc : env.createOutcome = .ok cid)
    (hs : env.startOutcome = .ok ()) :
    countForceRemove (RunQuery env).1 = 1 := by
  have hrc : runContainer env = ([.createContainer, .startContainer], .ok cid) := by
    simp [runContainer, hc, hs]
  rcases hP : pull env.pullEnv with ⟨pevs, pres⟩
  have hp2 : pres = .ok chp := by rw [hP] at hp; exact hp
  subst hp2
  rcases hq : runQuery env.attempts env.maxExecRetries with ⟨calls, res⟩
  unfold RunQuery countForceRemove
  rw [hP, hrc, hq]
  cases res <;>
    simp [watcher, List.countP_append, List.countP_cons, isForceRemove,
      countP_isForceRemove_pullStep, countP_isForceRemove_execCall]

/-- A request environment that reaches a started container and succeeds. -/
def runEnvSuccess : RunEnv where
  pullEnv := pullEnvHit
  createOutcome := .ok "cid1"
  startOutcome := .ok ()
  attempts := fun _ => .ok "result" ""
  maxExecRetries := 1
  ctxCanceled := false

/-- Witness for C2 at a concrete successful request. -/
theorem claim_C2_witness : countForceRemove (RunQuery runEnvSuccess).1 = 1 :=
  claim_C2_exactly_one_force_remove runEnvSuccess "chp-image" "cid1" rfl rfl rfl

/-- Under exec attempts that all succeed and are all judged "not ready",
the retry loop runs through all of its iterations and ends with the last
captured stdout/stderr pair, having called `exec` once per iteration. -/
lemma runQueryLoop_exhausts (attempts : Nat → ExecOutcome) (s e : Nat → String) :
    ∀ (n retry : Nat) (out0 err0 : String),
      (∀ j, j ≤ n → attempts (retry + j) = .ok (s (retry + j)) (e (retry + j))) →
      (∀ j, j ≤ n → checkIfQueryExecuted (s (retry + j)) (e (retry + j)) = false) →
      (runQueryLoop attempts (n + 1) retry out0 err0).2 = .ok (s (retry + n), e (retry + n)) ∧
      (runQueryLoop attempts (n + 1) retry out0 err0).1.length = n + 1 := by
  intro n
  induction n with
  | zero =>
    intro retry out0 err0 hok hchk
    have h0 := hok 0 (Nat.le_refl 0)
    have c0 := hchk 0 (Nat.le_refl 0)
    rw [Nat.add_zero] at h0 c0
    refine ⟨?_, ?_⟩ <;> simp [runQueryLoop, h0, c0]
  | succ n ih =>
    intro retry out0 err0 hok hchk
    have h0 := hok 0 (Nat.zero_le _)
    have c0 := hchk 0 (Nat.zero_le _)
    rw [Nat.add_zero] at h0 c0
    have hok' : ∀ j, j ≤ n →
        attempts (retry + 1 + j) = .ok (s (retry + 1 + j)) (e (retry + 1 + j)) := by
      intro j hj
      have hx : retry + 1 + j = retry + (j + 1) := by omega
      rw [hx]
      exact hok (j + 1) (by omega)
    have hchk' : ∀ j, j ≤ n →
        checkIfQueryExecuted (s (retry + 1 + j)) (e (retry + 1 + j)) = false := by
      intro j hj
      have hx : retry + 1 + j = retry + (j + 1) := by omega
      rw [hx]
      exact hchk (j + 1) (by omega)
    obtain ⟨ih1, ih2⟩ := ih (retry + 1) (s retry) (e retry) hok' hchk'
    have hx : retry + 1 + n = retry + (n + 1) := by omega
    rw [hx] at ih1
    have hstep : runQueryLoop attempts (n + 1 + 1) retry out0 err0 =
        (retry :: (runQueryLoop attempts (n + 1) (retry + 1) (s retry) (e retry)).1,
         (runQueryLoop attempts (n + 1) (retry + 1) (s retry) (e retry)).2) := by
      conv_lhs => rw [runQueryLoop]
      rw [h0]
      simp [c0]
    rw [hstep]
    exact ⟨ih1, by simp [ih2]⟩

/-- C4: when every one of the `MaxExecRetries` exec attempts succeeds but
each attempt's stderr contains the readiness sentinel, `runQuery` makes
exactly `MaxExecRetries` exec calls and returns the last captured output
with no error — the last stdout joined to the last (necessarily
non-empty) stderr by a newline — rather than any "still not ready"
error. -/
theorem claim_C4_exhausted_retries_return_last_output (attempts : Nat → ExecOutcome)
    (maxExecRetries : Int) (s e : Nat → String)
    (hM : 0 < maxExecRetries)
    (hok : ∀ i, i < maxExecRetries.toNat → attempts i = .ok (s i) (e i))
    (hsent : ∀ i, i < maxExecRetries.toNat → containsSubstring (e i) sentinel) :
    (runQuery attempts maxExecRetries).2 =
      .ok (s (maxExecRetries.toNat - 1) ++ "\n" ++ e (maxExecRetries.toNat - 1)) ∧
    (runQuery attempts maxExecRetries).1.length = maxExecRetries.toNat := by
  obtain ⟨n, hn⟩ : ∃ n, maxExecRetries.toNat = n + 1 := ⟨maxExecRetries.toNat - 1, by omega⟩
  have hok' : ∀ j, j ≤ n → attempts (0 + j) = .ok (s (0 + j)) (e (0 + j)) := by
    intro j hj
    rw [Nat.zero_add]
    exact hok j (by omega)
  have hchk' : ∀ j, j ≤ n → checkIfQueryExecuted (s (0 + j)) (e (0 + j)) = false := by
    intro j hj
    rw [Nat.zero_add]
    have hx := hsent j (by omega)
    simp [checkIfQueryExecuted, hx]
  obtain ⟨h1, h2⟩ := runQueryLoop_exhausts attempts s e n 0 "" "" hok' hchk'
  rw [Nat.zero_add] at h1
  have hne : e n ≠ "" := by
    intro h0
    have hx := hsent n (by omega)
    rw [h0] at hx
    revert hx
    decide
  constructor
  · unfold runQuery
    rw [hn]
    rcases hr : runQueryLoop attempts (n + 1) 0 "" "" with ⟨calls, res⟩
    rw [hr] at h1
    have h1' : res = .ok (s n, e n) := h1
    subst h1'
    simp [hne]
  · unfold runQuery
    rw [hn]
    rcases hr : runQueryLoop attempts (n + 1) 0 "" "" with ⟨calls, res⟩
    rw [hr] at h2
    have h2' : calls.length = n + 1 := h2
    cases res <;> simp [h2']

/-- Witness for C4: two attempts, each succeeding with the sentinel in
stderr; the result is the last output joined by a newline, with two exec
calls made. -/
theorem claim_C4_witness :
    (runQuery (fun _ => ExecOutcome.ok "out" sentinel) 2).2 =
      .ok ("out" ++ "\n" ++ sentinel) ∧
    (runQuery (fun _ => ExecOutcome.ok "out" sentinel) 2).1.length = 2 :=
  claim_C4_exhausted_retries_return_last_output (fun _ => ExecOutcome.ok "out" sentinel) 2
    (fun _ => "out") (fun _ => sentinel) (by decide) (fun _ _ => rfl)
    (fun _ _ => List.infix_refl _)

/-- C10: when `MaxExecRetries` is zero or negative, the retry loop of
`runQuery` performs no exec call at all and returns the empty string with
no error, so `RunQuery` reports such a request (once its container
started) as a successful run with empty output. -/
theorem claim_C10_nonpositive_retries_succeed_empty (env : RunEnv) (chp cid : String)
    (hM : env.maxExecRetries ≤ 0)
    (hp : (pull env.pullEnv).2 = .ok chp)
    (hc : env.createOutcome = .ok cid)
    (hs : env.startOutcome = .ok ()) :
    runQuery env.attempts env.maxExecRetries = ([], .ok "") ∧
    (RunQuery env).2 = .ok "" := by
  have htn : env.maxExecRetries.toNat = 0 := by omega
  have hq : runQuery env.attempts env.maxExecRetries = ([], .ok "") := by
    unfold runQuery
    rw [htn]
    simp [runQueryLoop]
  refine ⟨hq, ?_⟩
  have hrc : runContainer env = ([.createContainer, .startContainer], .ok cid) := by
    simp [runContainer, hc, hs]
  rcases hP : pull env.pullEnv with ⟨pevs, pres⟩
  have hp2 : pres = .ok chp := by rw [hP] at hp; exact hp
  subst hp2
  unfold RunQuery
  rw [hP, hrc, hq]

/-- A request environment with `MaxExecRetries = 0` whose exec oracle, if
it were ever consulted, would fail. -/
def runEnvZeroRetries : RunEnv where
  pullEnv := pullEnvHit
  createOutcome := .ok "cid2"
  startOutcome := .ok ()
  attempts := fun _ => .err "never called"
  maxExecRetries := 0
  ctxCanceled := false

/-- Witness for C10 at a concrete zero-retries request. -/
theorem claim_C10_witness :
    runQuery runEnvZeroRetries.attempts runEnvZeroRetries.maxExecRetries = ([], .ok "") ∧
    (RunQuery runEnvZeroRetries).2 = .ok "" :=
  claim_C10_nonpositive_retries_succeed_empty runEnvZeroRetries "chp-image" "cid2"
    (by decide) rfl rfl rfl

end LocalDocker
